import Mathlib

/-!
Shallow embedding of the approved-listing retrieval and normalization
pipeline of `src/unnamed/part_000` (the listings service module of
roverpass-park-sale).

Conventions of the embedding:
* JavaScript values that may be `null`/`undefined` are modelled as `Option`.
* JavaScript numbers are modelled as `Rat` (all values the code compares
  against are exact decimals).
* The JS falsy-coalescing `x || d` is modelled by `jsOrStr` / `jsOrNum`
  (`""` and `0` are falsy, so they fall through to the default).
* The remote store (Supabase/PostgREST) is an external collaborator; each
  operation receives it as an abstract function from the built query to a
  reply.  `StoreReply.err` models a non-null `error` field in the response,
  `StoreReply.exn` models a thrown exception caught by the outer
  `try/catch`.
* The storage-service public-URL resolver
  (`supabase.storage.from('listing-images').getPublicUrl`) is an abstract
  function `resolve : String → String` (the spec models it as pure, §4.3).
* `new Date().toISOString()` is an abstract `now : String` parameter.
* The per-row `try { … } catch { return null }` can only fail on an
  exception raised by the external SDK during row processing; that
  nondeterminism is modelled by an oracle `crash : RawListing → Bool`
  saying which rows throw.
-/

/-- A row of the `listing_images` sub-collection: `{storage_path, is_primary}`. -/
structure RawImage where
  storage_path : String
  is_primary : Bool
deriving Repr, DecidableEq

/-- A raw row of the `listings` table, with exactly the columns selected by
the three fetch operations.  `id` is the (non-null) primary key; every other
column may be null. -/
structure RawListing where
  id : String
  title : Option String := none
  description : Option String := none
  price : Option Rat := none
  address : Option String := none
  city : Option String := none
  state : Option String := none
  latitude : Option Rat := none
  longitude : Option Rat := none
  num_sites : Option Rat := none
  occupancy_rate : Option Rat := none
  annual_revenue : Option Rat := none
  cap_rate : Option Rat := none
  created_at : Option String := none
  status : Option String := none
  property_type : Option String := none
  user_id : Option String := none
  listing_images : Option (List RawImage) := none
deriving Repr, DecidableEq

/-- The nested `location` object of the `Listing` interface. -/
structure Location where
  address : String
  city : String
  state : String
  lat : Rat
  lng : Rat
deriving Repr, DecidableEq

/-- The nested `broker` object of the `Listing` interface. -/
structure Broker where
  avatar : String
  name : String
  phone : String
  email : String
  company : String
  id : String
deriving Repr, DecidableEq

/-- The normalized, display-facing `Listing` interface. -/
structure Listing where
  id : String
  title : String
  description : String
  price : Rat
  location : Location
  numSites : Rat
  occupancyRate : Rat
  annualRevenue : Rat
  capRate : Rat
  images : List String
  videoUrl : Option String := none
  broker : Broker
  pdfUrl : Option String := none
  createdAt : String
  featured : Bool
  status : String
deriving Repr, DecidableEq

/-- JS `x || d` for a nullable string: `null`, `undefined` and `""` are
falsy and yield the default. -/
def jsOrStr : Option String → String → String
  | none, d => d
  | some s, d => if s = "" then d else s

/-- JS `x || d` for a nullable number: `null`, `undefined` and `0` are
falsy and yield the default. -/
def jsOrNum : Option Rat → Rat → Rat
  | none, d => d
  | some v, d => if v = 0 then d else v

/-- JS `Array.prototype.findIndex`: index of the first element satisfying
`p`, or `-1` when there is none. -/
def jsFindIndex (p : α → Bool) : List α → Int
  | [] => -1
  | x :: xs =>
    if p x then 0
    else
      let r := jsFindIndex p xs
      if r = -1 then -1 else r + 1

/-- Image processing of `fetchApprovedListings` (lines 117–131 of the
source): resolve each `storage_path` to a URL in input order, then, when
`findIndex(img => img.is_primary)` is positive and the URL list is
non-empty, splice the primary URL out and unshift it to the front. -/
def processImagesA (resolve : String → String) (limgs : Option (List RawImage)) :
    List String :=
  let images := (limgs.getD []).map (fun img => resolve img.storage_path)
  let primaryImageIndex : Int :=
    match limgs with
    | some l => if 0 < l.length then jsFindIndex (fun img => img.is_primary) l else -1
    | none => -1
  if 0 < primaryImageIndex ∧ 0 < images.length then
    images.getD primaryImageIndex.toNat "" :: images.eraseIdx primaryImageIndex.toNat
  else images

/-- Image processing of `fetchFeaturedApprovedListings` (lines 200–214),
a verbatim copy of the block in `fetchApprovedListings`. -/
def processImagesF (resolve : String → String) (limgs : Option (List RawImage)) :
    List String :=
  let images := (limgs.getD []).map (fun img => resolve img.storage_path)
  let primaryImageIndex : Int :=
    match limgs with
    | some l => if 0 < l.length then jsFindIndex (fun img => img.is_primary) l else -1
    | none => -1
  if 0 < primaryImageIndex ∧ 0 < images.length then
    images.getD primaryImageIndex.toNat "" :: images.eraseIdx primaryImageIndex.toNat
  else images

/-- Image processing of `fetchApprovedListingById` (lines 283–297), again a
verbatim copy of the block in `fetchApprovedListings`. -/
def processImagesById (resolve : String → String) (limgs : Option (List RawImage)) :
    List String :=
  let images := (limgs.getD []).map (fun img => resolve img.storage_path)
  let primaryImageIndex : Int :=
    match limgs with
    | some l => if 0 < l.length then jsFindIndex (fun img => img.is_primary) l else -1
    | none => -1
  if 0 < primaryImageIndex ∧ 0 < images.length then
    images.getD primaryImageIndex.toNat "" :: images.eraseIdx primaryImageIndex.toNat
  else images

/-- Per-row normalization of `fetchApprovedListings` (lines 114–164 minus
the try/catch): the record literal returned for each raw row, with
`featured: false`. -/
def normalizeListingA (resolve : String → String) (now : String)
    (listing : RawListing) : Listing :=
  { id := listing.id
    title := jsOrStr listing.title "Untitled Listing"
    description := jsOrStr listing.description ""
    price := jsOrNum listing.price 0
    location :=
      { address := jsOrStr listing.address ""
        city := jsOrStr listing.city ""
        state := jsOrStr listing.state ""
        lat := jsOrNum listing.latitude 0
        lng := jsOrNum listing.longitude 0 }
    numSites := jsOrNum listing.num_sites 0
    occupancyRate := jsOrNum listing.occupancy_rate 0
    annualRevenue := jsOrNum listing.annual_revenue 0
    capRate := jsOrNum listing.cap_rate 0
    images := processImagesA resolve listing.listing_images
    broker :=
      { id := jsOrStr listing.user_id ""
        name := "Contact Agent"
        email := "contact@example.com"
        phone := ""
        company := ""
        avatar := "/default-avatar.png" }
    createdAt := jsOrStr listing.created_at now
    featured := false
    status := jsOrStr listing.status "approved" }

/-- Per-row normalization of `fetchFeaturedApprovedListings` (lines
197–250 minus the try/catch): identical fields except `featured: true`,
and the broker object is built in a separate `const` first. -/
def normalizeListingF (resolve : String → String) (now : String)
    (listing : RawListing) : Listing :=
  let broker : Broker :=
    { id := jsOrStr listing.user_id ""
      name := "Contact Agent"
      email := "contact@example.com"
      phone := ""
      company := ""
      avatar := "/default-avatar.png" }
  { id := listing.id
    title := jsOrStr listing.title "Untitled Listing"
    description := jsOrStr listing.description ""
    price := jsOrNum listing.price 0
    location :=
      { address := jsOrStr listing.address ""
        city := jsOrStr listing.city ""
        state := jsOrStr listing.state ""
        lat := jsOrNum listing.latitude 0
        lng := jsOrNum listing.longitude 0 }
    numSites := jsOrNum listing.num_sites 0
    occupancyRate := jsOrNum listing.occupancy_rate 0
    annualRevenue := jsOrNum listing.annual_revenue 0
    capRate := jsOrNum listing.cap_rate 0
    images := processImagesF resolve listing.listing_images
    broker := broker
    createdAt := jsOrStr listing.created_at now
    featured := true
    status := jsOrStr listing.status "approved" }

/-- Per-row normalization of `fetchApprovedListingById` (lines 280–330
minus the try/catch), with `featured: false`. -/
def normalizeListingById (resolve : String → String) (now : String)
    (listing : RawListing) : Listing :=
  { id := listing.id
    title := jsOrStr listing.title "Untitled Listing"
    description := jsOrStr listing.description ""
    price := jsOrNum listing.price 0
    location :=
      { address := jsOrStr listing.address ""
        city := jsOrStr listing.city ""
        state := jsOrStr listing.state ""
        lat := jsOrNum listing.latitude 0
        lng := jsOrNum listing.longitude 0 }
    numSites := jsOrNum listing.num_sites 0
    occupancyRate := jsOrNum listing.occupancy_rate 0
    annualRevenue := jsOrNum listing.annual_revenue 0
    capRate := jsOrNum listing.cap_rate 0
    images := processImagesById resolve listing.listing_images
    broker :=
      { id := jsOrStr listing.user_id ""
        name := "Contact Agent"
        email := "contact@example.com"
        phone := ""
        company := ""
        avatar := "/default-avatar.png" }
    createdAt := jsOrStr listing.created_at now
    featured := false
    status := jsOrStr listing.status "approved" }

/-- JS `String.prototype.trim`: strip whitespace from both ends.
(`String.trim` of the library is extensionally the same; this executable
form reduces inside the kernel.) -/
def trimStr (s : String) : String :=
  String.mk (((s.toList.dropWhile Char.isWhitespace).reverse.dropWhile
    Char.isWhitespace).reverse)

/-- Lower-casing, character by character (SQL `ilike` folds case this way
for ASCII). -/
def lowerStr (s : String) : String := String.mk (s.toList.map Char.toLower)

/-- Substring containment (`LIKE '%needle%'` semantics). -/
def strContains (hay needle : String) : Bool := decide (needle.toList <:+: hay.toList)

/-- Case-insensitive substring containment (`ILIKE '%needle%'`). -/
def strContainsCI (hay needle : String) : Bool :=
  strContains (lowerStr hay) (lowerStr needle)

/-- The `ListingFilters` interface.  The index signature
`[key: string]: any` admits extra keys, but the query builder never reads
them, so they are omitted from the embedding. -/
structure ListingFilters where
  priceMin : Option Rat := none
  priceMax : Option Rat := none
  state : Option String := none
  sitesMin : Option Rat := none
  sitesMax : Option Rat := none
  capRateMin : Option Rat := none
  occupancyRateMin : Option Rat := none
  search : Option String := none
deriving Repr, DecidableEq

/-- The read request a fetch operation sends to the store: one optional
constraint per column the builder can touch.  `searchOr` holds the trimmed
search term `t`; the emitted PostgREST constraint is
`or(title.ilike.%t%,description.ilike.%t%,city.ilike.%t%,state.ilike.%t%)`. -/
structure ListingsQuery where
  statusEq : Option String := none
  priceGte : Option Rat := none
  priceLte : Option Rat := none
  stateEq : Option String := none
  sitesGte : Option Rat := none
  sitesLte : Option Rat := none
  capRateGte : Option Rat := none
  occupancyGte : Option Rat := none
  searchOr : Option String := none
  orderByCreatedAtDesc : Bool := false
  limitTo : Option Nat := none
deriving Repr, DecidableEq

/-- Line 69–71: `if (filters.priceMin !== undefined && filters.priceMin > 0)
query = query.gte('price', filters.priceMin)`. -/
def applyPriceMin (f : ListingFilters) (q : ListingsQuery) : ListingsQuery :=
  match f.priceMin with
  | some v => if 0 < v then { q with priceGte := some v } else q
  | none => q

/-- Line 73–75: `if (filters.priceMax !== undefined && filters.priceMax < 10000000)
query = query.lte('price', filters.priceMax)`. -/
def applyPriceMax (f : ListingFilters) (q : ListingsQuery) : ListingsQuery :=
  match f.priceMax with
  | some v => if v < 10000000 then { q with priceLte := some v } else q
  | none => q

/-- Line 78–80: `if (filters.state && filters.state !== '')
query = query.eq('state', filters.state)`. -/
def applyState (f : ListingFilters) (q : ListingsQuery) : ListingsQuery :=
  match f.state with
  | some s => if s ≠ "" then { q with stateEq := some s } else q
  | none => q

/-- Line 83–85: `if (filters.sitesMin !== undefined && filters.sitesMin > 0)
query = query.gte('num_sites', filters.sitesMin)`. -/
def applySitesMin (f : ListingFilters) (q : ListingsQuery) : ListingsQuery :=
  match f.sitesMin with
  | some v => if 0 < v then { q with sitesGte := some v } else q
  | none => q

/-- Line 87–89: `if (filters.sitesMax !== undefined && filters.sitesMax < 1000)
query = query.lte('num_sites', filters.sitesMax)`. -/
def applySitesMax (f : ListingFilters) (q : ListingsQuery) : ListingsQuery :=
  match f.sitesMax with
  | some v => if v < 1000 then { q with sitesLte := some v } else q
  | none => q

/-- Line 92–94: `if (filters.capRateMin !== undefined && filters.capRateMin > 0)
query = query.gte('cap_rate', filters.capRateMin)`. -/
def applyCapRateMin (f : ListingFilters) (q : ListingsQuery) : ListingsQuery :=
  match f.capRateMin with
  | some v => if 0 < v then { q with capRateGte := some v } else q
  | none => q

/-- Line 97–99: `if (filters.occupancyRateMin !== undefined && filters.occupancyRateMin > 0)
query = query.gte('occupancy_rate', filters.occupancyRateMin)`. -/
def applyOccupancyRateMin (f : ListingFilters) (q : ListingsQuery) : ListingsQuery :=
  match f.occupancyRateMin with
  | some v => if 0 < v then { q with occupancyGte := some v } else q
  | none => q

/-- Line 101–104: `if (filters.search && filters.search.trim() !== '')
query = query.or('title.ilike.%t%,description.ilike.%t%,city.ilike.%t%,state.ilike.%t%')`
with `t = filters.search.trim()` (a non-empty string is truthy, so the
guard is: `search` defined, non-empty, and non-empty after trimming). -/
def applySearch (f : ListingFilters) (q : ListingsQuery) : ListingsQuery :=
  match f.search with
  | some s => if s ≠ "" ∧ trimStr s ≠ "" then { q with searchOr := some (trimStr s) } else q
  | none => q

/-- The query construction of `fetchApprovedListings` (lines 56–105):
`.eq('status','approved')` always, then each filter is appended (in source
order) under the exact condition the code tests. -/
def buildListingsQuery (filters : Option ListingFilters) : ListingsQuery :=
  let q : ListingsQuery := { statusEq := some "approved" }
  match filters with
  | none => q
  | some f =>
    applySearch f (applyOccupancyRateMin f (applyCapRateMin f (applySitesMax f
      (applySitesMin f (applyState f (applyPriceMax f (applyPriceMin f q)))))))

/-- The query of `fetchFeaturedApprovedListings` (lines 180–190):
status equality, `.order('created_at', { ascending: false })`, `.limit(3)`. -/
def buildFeaturedQuery : ListingsQuery :=
  { statusEq := some "approved", orderByCreatedAtDesc := true, limitTo := some 3 }

/-- Whether a raw row satisfies the `or(...ilike...)` search constraint of a
query, under PostgREST semantics: a null column never matches, a non-null
column matches when it contains the term case-insensitively.  `none` (no
search constraint) holds vacuously. -/
def searchConstraintHolds (q : ListingsQuery) (r : RawListing) : Bool :=
  match q.searchOr with
  | none => true
  | some t =>
    (match r.title with | some s => strContainsCI s t | none => false) ||
    (match r.description with | some s => strContainsCI s t | none => false) ||
    (match r.city with | some s => strContainsCI s t | none => false) ||
    (match r.state with | some s => strContainsCI s t | none => false)

/-- Outcome of a list-returning store request: row data, a non-null
`error` field, or a thrown exception. -/
inductive StoreReply where
  | rows (data : List RawListing)
  | err
  | exn
deriving Repr, DecidableEq

/-- The `.single()` request of `fetchApprovedListingById`:
`.eq('id', id).eq('status','approved').single()`. -/
structure SingleQuery where
  idEq : String
  statusEq : String
deriving Repr, DecidableEq

/-- Outcome of a `.single()` request: one row, null data, a non-null
`error`, or a thrown exception. -/
inductive SingleReply where
  | row (r : RawListing)
  | noData
  | err
  | exn
deriving Repr, DecidableEq

/-- The head-count request of `countApprovedListings`:
`.select('id', { count: 'exact', head: true }).eq('status','approved')`. -/
structure CountQuery where
  statusEq : String
deriving Repr, DecidableEq

/-- Outcome of a count request: a (nullable) count, a non-null `error`, or
a thrown exception. -/
inductive CountReply where
  | count (n : Option Nat)
  | err
  | exn
deriving Repr, DecidableEq

/-- The batch transformation shared by the two list operations (lines
114–164 / 197–250): map each row through its try/catch-wrapped normalizer
(`none` = the row threw) and keep the non-null results
(`.filter(item => item !== null)`). -/
def processBatch (norm : RawListing → Listing) (crash : RawListing → Bool)
    (data : List RawListing) : List Listing :=
  (data.map (fun l => if crash l then none else some (norm l))).filterMap id

/-- `fetchApprovedListings(filters?)` (lines 52–171): build the filtered
query, send it, return `[]` on error or exception, otherwise normalize the
batch (the `data.length > 0` guard returns `[]` for an empty batch). -/
def fetchApprovedListings (resolve : String → String) (now : String)
    (store : ListingsQuery → StoreReply) (crash : RawListing → Bool)
    (filters : Option ListingFilters) : List Listing :=
  match store (buildListingsQuery filters) with
  | .err => []
  | .exn => []
  | .rows data =>
    if 0 < data.length then
      processBatch (normalizeListingA resolve now) crash data
    else []

/-- `fetchFeaturedApprovedListings()` (lines 177–257): fixed query with
descending `created_at` order and limit 3; same soft-failure and batch
shape, normalizer marks `featured: true`. -/
def fetchFeaturedApprovedListings (resolve : String → String) (now : String)
    (store : ListingsQuery → StoreReply) (crash : RawListing → Bool) : List Listing :=
  match store buildFeaturedQuery with
  | .err => []
  | .exn => []
  | .rows data =>
    if 0 < data.length then
      processBatch (normalizeListingF resolve now) crash data
    else []

/-- `fetchApprovedListingById(id)` (lines 262–336): single-row query on
`id` and `status == 'approved'`; `null` on error, exception, missing data,
or a throw while normalizing the row. -/
def fetchApprovedListingById (resolve : String → String) (now : String)
    (store : SingleQuery → SingleReply) (crash : RawListing → Bool)
    (id : String) : Option Listing :=
  match store { idEq := id, statusEq := "approved" } with
  | .err => none
  | .exn => none
  | .noData => none
  | .row d =>
    if crash d then none else some (normalizeListingById resolve now d)

/-- JS `count || 0` over a nullable count. -/
def jsOrNat : Option Nat → Nat
  | none => 0
  | some n => if n = 0 then 0 else n

/-- `countApprovedListings()` (lines 341–355): head-count of approved rows;
`0` on error or exception, else `count || 0`. -/
def countApprovedListings (store : CountQuery → CountReply) : Nat :=
  match store { statusEq := "approved" } with
  | .err => 0
  | .exn => 0
  | .count n => jsOrNat n

/-- Lexicographic order on character lists (executable, used to state the
descending-timestamp ordering of the featured fetch). -/
def charListLe : List Char → List Char → Bool
  | [], _ => true
  | _ :: _, [] => false
  | a :: as, b :: bs => if a < b then true else if a = b then charListLe as bs else false

/-- Lexicographic order on strings; on ISO-8601 timestamp strings this is
chronological order. -/
def strLe (a b : String) : Bool := charListLe a.data b.data

/-- `applyPriceMin` only writes the `priceGte` field. -/
theorem applyPriceMin_char (f : ListingFilters) (q : ListingsQuery) :
    applyPriceMin f q =
      { q with priceGte := match f.priceMin with
          | some v => if 0 < v then some v else q.priceGte
          | none => q.priceGte } := by
  unfold applyPriceMin
  cases f.priceMin with
  | none => rfl
  | some v => by_cases hv : 0 < v <;> simp [hv]

/-- `applyPriceMax` only writes the `priceLte` field. -/
theorem applyPriceMax_char (f : ListingFilters) (q : ListingsQuery) :
    applyPriceMax f q =
      { q with priceLte := match f.priceMax with
          | some v => if v < 10000000 then some v else q.priceLte
          | none => q.priceLte } := by
  unfold applyPriceMax
  cases f.priceMax with
  | none => rfl
  | some v => by_cases hv : v < 10000000 <;> simp [hv]

/-- `applyState` only writes the `stateEq` field. -/
theorem applyState_char (f : ListingFilters) (q : ListingsQuery) :
    applyState f q =
      { q with stateEq := match f.state with
          | some s => if s ≠ "" then some s else q.stateEq
          | none => q.stateEq } := by
  unfold applyState
  cases f.state with
  | none => rfl
  | some s => by_cases hs : s = "" <;> simp [hs]

/-- `applySitesMin` only writes the `sitesGte` field. -/
theorem applySitesMin_char (f : ListingFilters) (q : ListingsQuery) :
    applySitesMin f q =
      { q with sitesGte := match f.sitesMin with
          | some v => if 0 < v then some v else q.sitesGte
          | none => q.sitesGte } := by
  unfold applySitesMin
  cases f.sitesMin with
  | none => rfl
  | some v => by_cases hv : 0 < v <;> simp [hv]

/-- `applySitesMax` only writes the `sitesLte` field. -/
theorem applySitesMax_char (f : ListingFilters) (q : ListingsQuery) :
    applySitesMax f q =
      { q with sitesLte := match f.sitesMax with
          | some v => if v < 1000 then some v else q.sitesLte
          | none => q.sitesLte } := by
  unfold applySitesMax
  cases f.sitesMax with
  | none => rfl
  | some v => by_cases hv : v < 1000 <;> simp [hv]

/-- `applyCapRateMin` only writes the `capRateGte` field. -/
theorem applyCapRateMin_char (f : ListingFilters) (q : ListingsQuery) :
    applyCapRateMin f q =
      { q with capRateGte := match f.capRateMin with
          | some v => if 0 < v then some v else q.capRateGte
          | none => q.capRateGte } := by
  unfold applyCapRateMin
  cases f.capRateMin with
  | none => rfl
  | some v => by_cases hv : 0 < v <;> simp [hv]

/-- `applyOccupancyRateMin` only writes the `occupancyGte` field. -/
theorem applyOccupancyRateMin_char (f : ListingFilters) (q : ListingsQuery) :
    applyOccupancyRateMin f q =
      { q with occupancyGte := match f.occupancyRateMin with
          | some v => if 0 < v then some v else q.occupancyGte
          | none => q.occupancyGte } := by
  unfold applyOccupancyRateMin
  cases f.occupancyRateMin with
  | none => rfl
  | some v => by_cases hv : 0 < v <;> simp [hv]

/-- `applySearch` only writes the `searchOr` field. -/
theorem applySearch_char (f : ListingFilters) (q : ListingsQuery) :
    applySearch f q =
      { q with searchOr := match f.search with
          | some s => if s ≠ "" ∧ trimStr s ≠ "" then some (trimStr s) else q.searchOr
          | none => q.searchOr } := by
  unfold applySearch
  cases f.search with
  | none => rfl
  | some s => by_cases hs : s ≠ "" ∧ trimStr s ≠ "" <;> simp [hs]

/-- Closed form of the query built from a present filter object. -/
theorem buildListingsQuery_some (f : ListingFilters) :
    buildListingsQuery (some f) =
      { statusEq := some "approved"
        priceGte := match f.priceMin with
          | some v => if 0 < v then some v else none
          | none => none
        priceLte := match f.priceMax with
          | some v => if v < 10000000 then some v else none
          | none => none
        stateEq := match f.state with
          | some s => if s ≠ "" then some s else none
          | none => none
        sitesGte := match f.sitesMin with
          | some v => if 0 < v then some v else none
          | none => none
        sitesLte := match f.sitesMax with
          | some v => if v < 1000 then some v else none
          | none => none
        capRateGte := match f.capRateMin with
          | some v => if 0 < v then some v else none
          | none => none
        occupancyGte := match f.occupancyRateMin with
          | some v => if 0 < v then some v else none
          | none => none
        searchOr := match f.search with
          | some s => if s ≠ "" ∧ trimStr s ≠ "" then some (trimStr s) else none
          | none => none
        orderByCreatedAtDesc := false
        limitTo := none } := by
  unfold buildListingsQuery
  simp only [applyPriceMin_char, applyPriceMax_char, applyState_char, applySitesMin_char,
    applySitesMax_char, applyCapRateMin_char, applyOccupancyRateMin_char, applySearch_char]

/-- The status equality constraint is present whatever the filters are. -/
theorem buildListingsQuery_statusEq (filters : Option ListingFilters) :
    (buildListingsQuery filters).statusEq = some "approved" := by
  cases filters with
  | none => rfl
  | some f => rw [buildListingsQuery_some]

/-- `jsFindIndex` agrees with `List.findIdx?`, encoding "not found" as `-1`. -/
theorem jsFindIndex_eq_findIdx? (p : α → Bool) (l : List α) :
    jsFindIndex p l = match l.findIdx? p with
      | some i => (i : Int)
      | none => -1 := by
  induction l with
  | nil => rfl
  | cons x xs ih =>
    by_cases hx : p x
    · simp [jsFindIndex, hx, List.findIdx?_cons]
    · rw [jsFindIndex]
      simp only [hx, Bool.false_eq_true, if_false]
      rw [List.findIdx?_cons]
      simp only [hx, Bool.false_eq_true, if_false]
      rw [List.findIdx?_succ, ih]
      cases h : xs.findIdx? p with
      | none => simp
      | some i =>
        have hne : ((i : Int)) ≠ -1 := by omega
        simp only [Option.map_some', if_neg hne]
        push_cast
        ring

/-- `processBatch` is a `filterMap` over the raw rows. -/
theorem processBatch_eq_filterMap (norm : RawListing → Listing)
    (crash : RawListing → Bool) (data : List RawListing) :
    processBatch norm crash data =
      data.filterMap (fun l => if crash l then none else some (norm l)) := by
  unfold processBatch
  rw [List.filterMap_map]
  rfl

/-- Membership in a processed batch: exactly the normalizations of the
non-crashing raw rows. -/
theorem mem_processBatch {norm : RawListing → Listing} {crash : RawListing → Bool}
    {data : List RawListing} {l : Listing} :
    l ∈ processBatch norm crash data ↔ ∃ r ∈ data, crash r = false ∧ norm r = l := by
  rw [processBatch_eq_filterMap, List.mem_filterMap]
  constructor
  · rintro ⟨r, hr, hl⟩
    cases hc : crash r with
    | true => rw [hc] at hl; simp at hl
    | false =>
      rw [hc] at hl
      simp only [if_neg Bool.false_ne_true, Option.some_inj] at hl
      exact ⟨r, hr, hc, hl⟩
  · rintro ⟨r, hr, hc, hl⟩
    exact ⟨r, hr, by rw [hc]; simp [hl]⟩

/-- `processBatch` distributes over append. -/
theorem processBatch_append (norm : RawListing → Listing) (crash : RawListing → Bool)
    (l1 l2 : List RawListing) :
    processBatch norm crash (l1 ++ l2) =
      processBatch norm crash l1 ++ processBatch norm crash l2 := by
  simp [processBatch_eq_filterMap, List.filterMap_append]

/-- A crashing row contributes nothing to the batch. -/
theorem processBatch_cons_crash (norm : RawListing → Listing) (crash : RawListing → Bool)
    (r : RawListing) (l : List RawListing) (h : crash r = true) :
    processBatch norm crash (r :: l) = processBatch norm crash l := by
  simp [processBatch_eq_filterMap, List.filterMap_cons, h]

/-- A processed batch is no longer than its input. -/
theorem length_processBatch_le (norm : RawListing → Listing) (crash : RawListing → Bool)
    (data : List RawListing) :
    (processBatch norm crash data).length ≤ data.length := by
  rw [processBatch_eq_filterMap]
  exact List.length_filterMap_le _ _

/-- C2: for every input, whenever the store replies with a query error or
throws (on the one request each operation makes), `fetchApprovedListings`
returns `[]`, `fetchFeaturedApprovedListings` returns `[]`,
`fetchApprovedListingById` returns `none`, and `countApprovedListings`
returns `0`; being total Lean functions, none of the four operations can
raise an observable error for any store outcome. -/
theorem operations_soft_failure
    (resolve : String → String) (now : String) (crash : RawListing → Bool)
    (filters : Option ListingFilters) (id : String)
    (storeL storeF : ListingsQuery → StoreReply)
    (storeS : SingleQuery → SingleReply) (storeC : CountQuery → CountReply)
    (hL : storeL (buildListingsQuery filters) = .err ∨
      storeL (buildListingsQuery filters) = .exn)
    (hF : storeF buildFeaturedQuery = .err ∨ storeF buildFeaturedQuery = .exn)
    (hS : storeS { idEq := id, statusEq := "approved" } = .err ∨
      storeS { idEq := id, statusEq := "approved" } = .exn)
    (hC : storeC { statusEq := "approved" } = .err ∨
      storeC { statusEq := "approved" } = .exn) :
    fetchApprovedListings resolve now storeL crash filters = [] ∧
    fetchFeaturedApprovedListings resolve now storeF crash = [] ∧
    fetchApprovedListingById resolve now storeS crash id = none ∧
    countApprovedListings storeC = 0 := by
  refine ⟨?_, ?_, ?_, ?_⟩
  · rcases hL with h | h <;> simp [fetchApprovedListings, h]
  · rcases hF with h | h <;> simp [fetchFeaturedApprovedListings, h]
  · rcases hS with h | h <;> simp [fetchApprovedListingById, h]
  · rcases hC with h | h <;> simp [countApprovedListings, h]

/-- C2 witness: concrete failing stores for each of the four operations. -/
theorem operations_soft_failure_witness :
    fetchApprovedListings (fun s => s) "NOW" (fun _ => StoreReply.err) (fun _ => false) none = [] ∧
    fetchFeaturedApprovedListings (fun s => s) "NOW" (fun _ => StoreReply.exn) (fun _ => false) = [] ∧
    fetchApprovedListingById (fun s => s) "NOW" (fun _ => SingleReply.err) (fun _ => false) "L1" = none ∧
    countApprovedListings (fun _ => CountReply.exn) = 0 :=
  operations_soft_failure (fun s => s) "NOW" (fun _ => false) none "L1"
    (fun _ => StoreReply.err) (fun _ => StoreReply.exn)
    (fun _ => SingleReply.err) (fun _ => CountReply.exn)
    (Or.inl rfl) (Or.inr rfl) (Or.inl rfl) (Or.inr rfl)

/-- C4: in the query built by `fetchApprovedListings`, the `price`
lower-bound constraint equals `v` exactly when `filters.priceMin = v > 0`,
and the upper-bound constraint equals `v` exactly when
`filters.priceMax = v < 10,000,000`; concretely, `priceMax = 10,000,000`
(the sentinel) yields no upper bound, while `priceMin = 100,000` with
`priceMax = 9,999,999` yields both bounds. -/
theorem price_bounds_application :
    ∀ (f : ListingFilters) (v : Rat),
      ((buildListingsQuery (some f)).priceGte = some v ↔
        f.priceMin = some v ∧ 0 < v) ∧
      ((buildListingsQuery (some f)).priceLte = some v ↔
        f.priceMax = some v ∧ v < 10000000) ∧
      (buildListingsQuery (some { priceMax := some 10000000 })).priceLte = none ∧
      (buildListingsQuery (some { priceMin := some 100000, priceMax := some 9999999 })).priceGte
        = some 100000 ∧
      (buildListingsQuery (some { priceMin := some 100000, priceMax := some 9999999 })).priceLte
        = some 9999999 := by
  intro f v
  refine ⟨?_, ?_, ?_, ?_, ?_⟩
  · rw [buildListingsQuery_some]
    cases h : f.priceMin with
    | none => simp
    | some w =>
      by_cases hw : 0 < w
      · simp only [hw, if_true, Option.some_inj]
        constructor
        · rintro rfl; exact ⟨rfl, hw⟩
        · rintro ⟨hwv, _⟩; exact hwv
      · simp only [hw, if_false]
        constructor
        · intro h'
          exact absurd h' (by simp)
        · rintro ⟨hwv, hv⟩
          rw [Option.some_inj] at hwv
          subst hwv
          exact absurd hv hw
  · rw [buildListingsQuery_some]
    cases h : f.priceMax with
    | none => simp
    | some w =>
      by_cases hw : w < 10000000
      · simp only [hw, if_true, Option.some_inj]
        constructor
        · rintro rfl; exact ⟨rfl, hw⟩
        · rintro ⟨hwv, _⟩; exact hwv
      · simp only [hw, if_false]
        constructor
        · intro h'
          exact absurd h' (by simp)
        · rintro ⟨hwv, hv⟩
          rw [Option.some_inj] at hwv
          subst hwv
          exact absurd hv hw
  · decide
  · decide
  · decide

/-- C8: the normalizer sends both `price == 0` and a missing price to
`price == 0`; in fact the two raw rows normalize to identical records. -/
theorem price_zero_eq_price_missing :
    ∀ (resolve : String → String) (now : String) (r : RawListing),
      (normalizeListingA resolve now { r with price := some 0 }).price = 0 ∧
      (normalizeListingA resolve now { r with price := none }).price = 0 ∧
      normalizeListingA resolve now { r with price := some 0 } =
        normalizeListingA resolve now { r with price := none } := by
  intro resolve now r
  refine ⟨?_, rfl, ?_⟩ <;> simp [normalizeListingA, jsOrNum]

/-- C9: a raw row with an absent or empty image collection normalizes
successfully to a record whose `images` field is the empty sequence. -/
theorem no_images_empty_sequence
    (resolve : String → String) (now : String) (r : RawListing)
    (h : r.listing_images = none ∨ r.listing_images = some []) :
    (normalizeListingA resolve now r).images = [] := by
  rcases h with h | h <;> simp [normalizeListingA, processImagesA, h]

/-- C9 witness: a concrete row with no image collection. -/
theorem no_images_empty_sequence_witness :
    (normalizeListingA (fun s => s) "NOW" { id := "L1" }).images = [] :=
  no_images_empty_sequence (fun s => s) "NOW" { id := "L1" } (Or.inl rfl)

/-- C10: the per-row normalizers of the three fetch entry points agree on
every raw row except for `featured` (`false`, `true`, `false`
respectively); in particular the synthesized broker identity coincides. -/
theorem normalizers_agree_up_to_featured :
    ∀ (resolve : String → String) (now : String) (r : RawListing),
      normalizeListingById resolve now r = normalizeListingA resolve now r ∧
      normalizeListingF resolve now r =
        { normalizeListingA resolve now r with featured := true } ∧
      (normalizeListingA resolve now r).featured = false ∧
      (normalizeListingF resolve now r).featured = true ∧
      (normalizeListingById resolve now r).featured = false ∧
      (normalizeListingA resolve now r).broker =
        { id := jsOrStr r.user_id "", name := "Contact Agent",
          email := "contact@example.com", phone := "", company := "",
          avatar := "/default-avatar.png" } := by
  intro resolve now r
  exact ⟨rfl, rfl, rfl, rfl, rfl, rfl⟩

/-- A non-empty string survives falsy coalescing. -/
theorem jsOrStr_some (s d : String) (h : s ≠ "") : jsOrStr (some s) d = s := by
  simp [jsOrStr, h]

/-- A non-crashing row contributes its normalization, in place. -/
theorem processBatch_cons_nocrash (norm : RawListing → Listing) (crash : RawListing → Bool)
    (r : RawListing) (l : List RawListing) (h : crash r = false) :
    processBatch norm crash (r :: l) = norm r :: processBatch norm crash l := by
  simp [processBatch_eq_filterMap, List.filterMap_cons, h]

/-- How `fetchApprovedListings` consumes a successful store reply. -/
theorem fetchApprovedListings_rows_eq (resolve : String → String) (now : String)
    (store : ListingsQuery → StoreReply) (crash : RawListing → Bool)
    (filters : Option ListingFilters) (data : List RawListing)
    (h : store (buildListingsQuery filters) = StoreReply.rows data) :
    fetchApprovedListings resolve now store crash filters =
      if 0 < data.length then processBatch (normalizeListingA resolve now) crash data
      else [] := by
  unfold fetchApprovedListings
  rw [h]

/-- How `fetchFeaturedApprovedListings` consumes a successful store reply. -/
theorem fetchFeatured_rows_eq (resolve : String → String) (now : String)
    (store : ListingsQuery → StoreReply) (crash : RawListing → Bool)
    (data : List RawListing)
    (h : store buildFeaturedQuery = StoreReply.rows data) :
    fetchFeaturedApprovedListings resolve now store crash =
      if 0 < data.length then processBatch (normalizeListingF resolve now) crash data
      else [] := by
  unfold fetchFeaturedApprovedListings
  rw [h]

/-- C1: the query built by `fetchApprovedListings` carries the
`status == "approved"` equality constraint for every filter set, and —
provided the store honours its equality filter — every record in the
returned sequence has `status == "approved"`; the client side applies no
status post-filtering (its only use of `status` is a falsy default to
`"approved"`). -/
theorem fetchApprovedListings_only_approved
    (resolve : String → String) (now : String)
    (store : ListingsQuery → StoreReply) (crash : RawListing → Bool)
    (filters : Option ListingFilters)
    (honours : ∀ data, store (buildListingsQuery filters) = StoreReply.rows data →
      ∀ r ∈ data, r.status = (buildListingsQuery filters).statusEq) :
    (buildListingsQuery filters).statusEq = some "approved" ∧
    ∀ l ∈ fetchApprovedListings resolve now store crash filters,
      l.status = "approved" := by
  refine ⟨buildListingsQuery_statusEq filters, ?_⟩
  intro l hl
  cases hst : store (buildListingsQuery filters) with
  | err =>
    unfold fetchApprovedListings at hl
    rw [hst] at hl
    simp at hl
  | exn =>
    unfold fetchApprovedListings at hl
    rw [hst] at hl
    simp at hl
  | rows data =>
    rw [fetchApprovedListings_rows_eq resolve now store crash filters data hst] at hl
    by_cases hlen : 0 < data.length
    · rw [if_pos hlen] at hl
      obtain ⟨r, hr, hcr, hnorm⟩ := mem_processBatch.mp hl
      have hstat := honours data hst r hr
      rw [buildListingsQuery_statusEq] at hstat
      subst hnorm
      show jsOrStr r.status "approved" = "approved"
      rw [hstat]
      rfl
    · rw [if_neg hlen] at hl
      simp at hl

/-- A concrete approved raw row for the C1 witness store. -/
def approvedRow : RawListing := { id := "L1", status := some "approved" }

/-- C1 witness: a one-row honest store; every returned record has
status "approved". -/
theorem fetchApprovedListings_only_approved_witness :
    ((fetchApprovedListings (fun s => s) "NOW"
        (fun _ => StoreReply.rows [approvedRow]) (fun _ => false) none).all
      (fun l => l.status == "approved")) = true := by
  have h := fetchApprovedListings_only_approved (fun s => s) "NOW"
    (fun _ => StoreReply.rows [approvedRow]) (fun _ => false) none (by
      intro data hdata r hr
      injection hdata with h'
      subst h'
      simp only [List.mem_singleton] at hr
      subst hr
      rfl)
  rw [List.all_eq_true]
  intro l hl
  exact beq_iff_eq.mpr (h.2 l hl)

/-- C3: for a raw image collection, the normalized image list is: the
resolved URLs in input order when no image is flagged primary or the first
primary is already at index 0; and, when the first primary sits at resolved
index `i + 1 > 0`, that URL moved to the front of the list with the
relative order of all remaining entries preserved (`take`/`drop` around the
removed position). -/
theorem processImages_primary_promotion :
    ∀ (resolve : String → String) (imgs : List RawImage),
      processImagesA resolve (some imgs) =
        match imgs.findIdx? (fun img => img.is_primary) with
        | some (i + 1) =>
            (imgs.map (fun img => resolve img.storage_path)).getD (i + 1) "" ::
              ((imgs.map (fun img => resolve img.storage_path)).take (i + 1) ++
                (imgs.map (fun img => resolve img.storage_path)).drop (i + 1 + 1))
        | some 0 => imgs.map (fun img => resolve img.storage_path)
        | none => imgs.map (fun img => resolve img.storage_path) := by
  intro resolve imgs
  cases himgs : imgs.findIdx? (fun img => img.is_primary) with
  | none =>
    have hji : jsFindIndex (fun img => img.is_primary) imgs = -1 := by
      rw [jsFindIndex_eq_findIdx?, himgs]
    simp [processImagesA, hji]
  | some j =>
    cases j with
    | zero =>
      have hji : jsFindIndex (fun img => img.is_primary) imgs = 0 := by
        rw [jsFindIndex_eq_findIdx?, himgs]
        simp
      by_cases hl : 0 < imgs.length
      · simp [processImagesA, hji, hl]
      · simp [processImagesA, hji, hl]
    | succ i =>
      have hlen : i + 1 < imgs.length :=
        (List.findIdx?_eq_some_iff_findIdx_eq.mp himgs).1
      have hlen0 : 0 < imgs.length := Nat.lt_of_le_of_lt (Nat.zero_le _) hlen
      have hji : jsFindIndex (fun img => img.is_primary) imgs = ((i + 1 : Nat) : Int) := by
        rw [jsFindIndex_eq_findIdx?, himgs]
      have hpos : (0 : Int) < ((i + 1 : Nat) : Int) := by push_cast; omega
      simp only [processImagesA, Option.getD_some, hji, if_pos hlen0, List.length_map]
      rw [if_pos ⟨hpos, hlen0⟩]
      rw [Int.toNat_natCast, List.eraseIdx_eq_take_drop_succ]

/-- C7: when the store returns a batch in which one row's normalization
throws, each of the two list operations (`fetchApprovedListings` and
`fetchFeaturedApprovedListings`) drops exactly that row — the result is the
processed prefix followed by the processed suffix, and every other
non-throwing row's normalization still appears in the output. -/
theorem failing_row_dropped_batch_continues
    (resolve : String → String) (now : String)
    (storeL storeF : ListingsQuery → StoreReply) (crash : RawListing → Bool)
    (filters : Option ListingFilters)
    (pre post preF postF : List RawListing) (bad badF : RawListing)
    (hstore : storeL (buildListingsQuery filters) = StoreReply.rows (pre ++ bad :: post))
    (hstoreF : storeF buildFeaturedQuery = StoreReply.rows (preF ++ badF :: postF))
    (hbad : crash bad = true) (hbadF : crash badF = true) :
    (fetchApprovedListings resolve now storeL crash filters =
      processBatch (normalizeListingA resolve now) crash pre ++
        processBatch (normalizeListingA resolve now) crash post ∧
    ∀ r ∈ pre ++ post, crash r = false →
      normalizeListingA resolve now r ∈
        fetchApprovedListings resolve now storeL crash filters) ∧
    (fetchFeaturedApprovedListings resolve now storeF crash =
      processBatch (normalizeListingF resolve now) crash preF ++
        processBatch (normalizeListingF resolve now) crash postF ∧
    ∀ r ∈ preF ++ postF, crash r = false →
      normalizeListingF resolve now r ∈
        fetchFeaturedApprovedListings resolve now storeF crash) := by
  constructor
  · have heq := fetchApprovedListings_rows_eq resolve now storeL crash filters _ hstore
    have hlen : 0 < (pre ++ bad :: post).length := by simp
    rw [if_pos hlen] at heq
    constructor
    · rw [heq, processBatch_append, processBatch_cons_crash _ _ _ _ hbad]
    · intro r hr hcr
      rw [heq, mem_processBatch]
      refine ⟨r, ?_, hcr, rfl⟩
      rcases List.mem_append.mp hr with h | h
      · exact List.mem_append.mpr (Or.inl h)
      · exact List.mem_append.mpr (Or.inr (List.mem_cons_of_mem _ h))
  · have heq := fetchFeatured_rows_eq resolve now storeF crash _ hstoreF
    have hlen : 0 < (preF ++ badF :: postF).length := by simp
    rw [if_pos hlen] at heq
    constructor
    · rw [heq, processBatch_append, processBatch_cons_crash _ _ _ _ hbadF]
    · intro r hr hcr
      rw [heq, mem_processBatch]
      refine ⟨r, ?_, hcr, rfl⟩
      rcases List.mem_append.mp hr with h | h
      · exact List.mem_append.mpr (Or.inl h)
      · exact List.mem_append.mpr (Or.inr (List.mem_cons_of_mem _ h))

/-- Concrete rows for the C7 witness. -/
def goodRow1 : RawListing := { id := "G1" }

/-- Second surviving row for the C7 witness. -/
def goodRow2 : RawListing := { id := "G2" }

/-- The row whose normalization is simulated to throw in the C7 witness. -/
def badRow : RawListing := { id := "BAD" }

/-- Crash oracle of the C7 witness: only `badRow` throws. -/
def crashBad : RawListing → Bool := fun r => r.id == "BAD"

/-- C7 witness: a three-row batch whose middle row throws yields, for both
list operations, exactly the two other normalized rows, in order. -/
theorem failing_row_dropped_batch_continues_witness :
    fetchApprovedListings (fun s => s) "NOW"
        (fun _ => StoreReply.rows [goodRow1, badRow, goodRow2]) crashBad none =
      [normalizeListingA (fun s => s) "NOW" goodRow1,
       normalizeListingA (fun s => s) "NOW" goodRow2] ∧
    fetchFeaturedApprovedListings (fun s => s) "NOW"
        (fun _ => StoreReply.rows [goodRow1, badRow, goodRow2]) crashBad =
      [normalizeListingF (fun s => s) "NOW" goodRow1,
       normalizeListingF (fun s => s) "NOW" goodRow2] := by
  have h := failing_row_dropped_batch_continues (fun s => s) "NOW"
    (fun _ => StoreReply.rows [goodRow1, badRow, goodRow2])
    (fun _ => StoreReply.rows [goodRow1, badRow, goodRow2]) crashBad none
    [goodRow1] [goodRow2] [goodRow1] [goodRow2] badRow badRow rfl rfl
    (by decide) (by decide)
  constructor
  · rw [h.1.1]
    rw [processBatch_cons_nocrash _ _ _ _ (by decide),
      processBatch_cons_nocrash _ _ _ _ (by decide)]
    rfl
  · rw [h.2.1]
    rw [processBatch_cons_nocrash _ _ _ _ (by decide),
      processBatch_cons_nocrash _ _ _ _ (by decide)]
    rfl

/-- Normalization preserves the descending-timestamp order of a batch whose
rows all carry a non-empty `created_at` (`featured` normalizer version). -/
theorem processBatch_pairwise_createdAt (resolve : String → String) (now : String)
    (crash : RawListing → Bool) (data : List RawListing)
    (hgood : ∀ r ∈ data, ∃ s, r.created_at = some s ∧ s ≠ "")
    (hsorted : data.Pairwise
      (fun a b => strLe (b.created_at.getD "") (a.created_at.getD "") = true)) :
    (processBatch (normalizeListingF resolve now) crash data).Pairwise
      (fun a b => strLe b.createdAt a.createdAt = true) := by
  induction data with
  | nil => simp [processBatch]
  | cons x xs ih =>
    rw [List.pairwise_cons] at hsorted
    obtain ⟨hx_rel, hxs_sorted⟩ := hsorted
    have hxs_good : ∀ r ∈ xs, ∃ s, r.created_at = some s ∧ s ≠ "" :=
      fun r hr => hgood r (List.mem_cons_of_mem _ hr)
    cases hcx : crash x with
    | true =>
      rw [processBatch_cons_crash _ _ _ _ hcx]
      exact ih hxs_good hxs_sorted
    | false =>
      rw [processBatch_cons_nocrash _ _ _ _ hcx, List.pairwise_cons]
      refine ⟨?_, ih hxs_good hxs_sorted⟩
      intro l hl
      obtain ⟨r, hr, hcr, hnorm⟩ := mem_processBatch.mp hl
      subst hnorm
      obtain ⟨sx, hsx, hsxne⟩ := hgood x (List.mem_cons_self _ _)
      obtain ⟨sr, hsr, hsrne⟩ := hgood r (List.mem_cons_of_mem _ hr)
      have hxr := hx_rel r hr
      rw [hsx, hsr] at hxr
      show strLe (jsOrStr r.created_at now) (jsOrStr x.created_at now) = true
      rw [hsx, hsr, jsOrStr_some _ _ hsxne, jsOrStr_some _ _ hsrne]
      simpa using hxr

/-- C5: `fetchFeaturedApprovedListings` requests approved rows ordered by
`created_at` descending with limit 3; provided the store honours the limit
and the ordering (and returns timestamped rows), the result has at most 3
records, every record has `featured == true`, and the sequence is ordered
by `createdAt` descending. -/
theorem fetchFeatured_limit_featured_ordered
    (resolve : String → String) (now : String)
    (store : ListingsQuery → StoreReply) (crash : RawListing → Bool)
    (honours : ∀ data, store buildFeaturedQuery = StoreReply.rows data →
      data.length ≤ 3 ∧
      (∀ r ∈ data, ∃ s, r.created_at = some s ∧ s ≠ "") ∧
      data.Pairwise
        (fun a b => strLe (b.created_at.getD "") (a.created_at.getD "") = true)) :
    buildFeaturedQuery.statusEq = some "approved" ∧
    buildFeaturedQuery.orderByCreatedAtDesc = true ∧
    buildFeaturedQuery.limitTo = some 3 ∧
    (fetchFeaturedApprovedListings resolve now store crash).length ≤ 3 ∧
    (∀ l ∈ fetchFeaturedApprovedListings resolve now store crash,
      l.featured = true) ∧
    (fetchFeaturedApprovedListings resolve now store crash).Pairwise
      (fun a b => strLe b.createdAt a.createdAt = true) := by
  refine ⟨rfl, rfl, rfl, ?_, ?_, ?_⟩
  · cases hst : store buildFeaturedQuery with
    | err =>
      unfold fetchFeaturedApprovedListings
      rw [hst]
      simp
    | exn =>
      unfold fetchFeaturedApprovedListings
      rw [hst]
      simp
    | rows data =>
      rw [fetchFeatured_rows_eq resolve now store crash data hst]
      by_cases hlen : 0 < data.length
      · rw [if_pos hlen]
        exact Nat.le_trans (length_processBatch_le _ _ _) (honours data hst).1
      · rw [if_neg hlen]
        simp
  · intro l hl
    cases hst : store buildFeaturedQuery with
    | err =>
      unfold fetchFeaturedApprovedListings at hl
      rw [hst] at hl
      simp at hl
    | exn =>
      unfold fetchFeaturedApprovedListings at hl
      rw [hst] at hl
      simp at hl
    | rows data =>
      rw [fetchFeatured_rows_eq resolve now store crash data hst] at hl
      by_cases hlen : 0 < data.length
      · rw [if_pos hlen] at hl
        obtain ⟨r, _, _, hnorm⟩ := mem_processBatch.mp hl
        subst hnorm
        rfl
      · rw [if_neg hlen] at hl
        simp at hl
  · cases hst : store buildFeaturedQuery with
    | err =>
      unfold fetchFeaturedApprovedListings
      rw [hst]
      simp
    | exn =>
      unfold fetchFeaturedApprovedListings
      rw [hst]
      simp
    | rows data =>
      rw [fetchFeatured_rows_eq resolve now store crash data hst]
      by_cases hlen : 0 < data.length
      · rw [if_pos hlen]
        exact processBatch_pairwise_createdAt resolve now crash data
          (honours data hst).2.1 (honours data hst).2.2
      · rw [if_neg hlen]
        simp

/-- Newer of the two rows of the C5 witness store. -/
def featuredRowNew : RawListing :=
  { id := "F2", created_at := some "2024-02-02T00:00:00Z" }

/-- Older of the two rows of the C5 witness store. -/
def featuredRowOld : RawListing :=
  { id := "F1", created_at := some "2024-01-01T00:00:00Z" }

/-- C5 witness: an honest two-row store sorted descending; the result obeys
the limit, the featured flag, and the ordering. -/
theorem fetchFeatured_limit_featured_ordered_witness :
    (fetchFeaturedApprovedListings (fun s => s) "NOW"
        (fun _ => StoreReply.rows [featuredRowNew, featuredRowOld])
        (fun _ => false)).length ≤ 3 ∧
    ((fetchFeaturedApprovedListings (fun s => s) "NOW"
        (fun _ => StoreReply.rows [featuredRowNew, featuredRowOld])
        (fun _ => false)).all (fun l => l.featured)) = true ∧
    (fetchFeaturedApprovedListings (fun s => s) "NOW"
        (fun _ => StoreReply.rows [featuredRowNew, featuredRowOld])
        (fun _ => false)).Pairwise
      (fun a b => strLe b.createdAt a.createdAt = true) := by
  have h := fetchFeatured_limit_featured_ordered (fun s => s) "NOW"
    (fun _ => StoreReply.rows [featuredRowNew, featuredRowOld]) (fun _ => false) (by
      intro data hdata
      injection hdata with h'
      subst h'
      refine ⟨by decide, ?_, by decide⟩
      intro r hr
      simp only [List.mem_cons, List.mem_singleton, List.not_mem_nil, or_false] at hr
      rcases hr with rfl | rfl
      · exact ⟨"2024-02-02T00:00:00Z", rfl, by decide⟩
      · exact ⟨"2024-01-01T00:00:00Z", rfl, by decide⟩)
  refine ⟨h.2.2.2.1, ?_, h.2.2.2.2.2⟩
  rw [List.all_eq_true]
  intro l hl
  exact h.2.2.2.2.1 l hl

/-- C6 witness row: matches the search term (case-insensitively) in `city`. -/
def rowCityAustin : RawListing := { id := "R1", city := some "Austin" }

/-- C6 witness row: contains the term only in `address`, which the search
constraint does not cover. -/
def rowOnlyAddressAustin : RawListing :=
  { id := "R2", title := some "Lakeside Park", description := some "Quiet spot",
    city := some "Dallas", state := some "TX", address := some "12 Austin Way" }

/-- C6: a search constraint appears in the built query exactly when
`filters.search` is a non-empty string with non-empty trimmed form, and it
then carries the trimmed term; the constraint is a single OR of
case-insensitive contains-matches over exactly `title`, `description`,
`city`, `state` — a row matching the term only in another field does not
satisfy it. -/
theorem search_application_and_semantics :
    ∀ (f : ListingFilters) (t : String),
      ((buildListingsQuery (some f)).searchOr = some t ↔
        ∃ s, f.search = some s ∧ s ≠ "" ∧ trimStr s ≠ "" ∧ t = trimStr s) ∧
      ((buildListingsQuery (some f)).searchOr = none ↔
        ∀ s, f.search = some s → trimStr s = "") ∧
      searchConstraintHolds
        (buildListingsQuery (some { search := some "austin" })) rowCityAustin = true ∧
      searchConstraintHolds
        (buildListingsQuery (some { search := some "austin" })) rowOnlyAddressAustin
        = false := by
  intro f t
  refine ⟨?_, ?_, by decide, by decide⟩
  · rw [buildListingsQuery_some]
    cases h : f.search with
    | none => simp
    | some s =>
      dsimp only
      by_cases hs : s ≠ "" ∧ trimStr s ≠ ""
      · rw [if_pos hs]
        constructor
        · intro ht
          rw [Option.some_inj] at ht
          exact ⟨s, rfl, hs.1, hs.2, ht.symm⟩
        · rintro ⟨s', hss', _, _, rfl⟩
          rw [Option.some_inj] at hss'
          subst hss'
          rfl
      · rw [if_neg hs]
        constructor
        · intro ht
          exact absurd ht (by simp)
        · rintro ⟨s', hss', hne, htne, rfl⟩
          rw [Option.some_inj] at hss'
          subst hss'
          exact absurd ⟨hne, htne⟩ hs
  · rw [buildListingsQuery_some]
    cases h : f.search with
    | none => simp
    | some s =>
      dsimp only
      by_cases hs : s ≠ "" ∧ trimStr s ≠ ""
      · rw [if_pos hs]
        constructor
        · intro ht
          exact absurd ht (by simp)
        · intro hall
          exact absurd (hall s rfl) hs.2
      · rw [if_neg hs]
        constructor
        · intro _ s' hss'
          rw [Option.some_inj] at hss'
          subst hss'
          rcases not_and_or.mp hs with h1 | h2
          · rw [not_not.mp h1]
            rfl
          · exact not_not.mp h2
        · intro _
          rfl
